import Mathlib

/-!
Verification development for the ideenfinder workflow-orchestration core.

The Python source is shallowly embedded: Python strings become `List Char`,
Python dicts become insertion-ordered association lists with Python
`dict.__setitem__` / `dict.update` semantics, coroutines returning a value or
raising become `Except`, and the external collaborators (text generation,
knowledge lookup, the Archon publishing API) become explicit capability
records passed to the functions that consume them.  Concurrency in the
fan-out phase is modelled by a completion schedule: each agent's outcome is a
pure value, and the schedule fixes the order in which outcomes are observed
by the join (`asyncio.gather`).
-/

/-- Decidable equality of outcomes, needed to evaluate concrete runs. -/
instance {ε α : Type} [DecidableEq ε] [DecidableEq α] :
    DecidableEq (Except ε α) := fun a b =>
  match a, b with
  | Except.error e, Except.error e' =>
    if h : e = e' then isTrue (by rw [h])
    else isFalse (fun hh => h (by injection hh))
  | Except.ok x, Except.ok y =>
    if h : x = y then isTrue (by rw [h])
    else isFalse (fun hh => h (by injection hh))
  | Except.error _, Except.ok _ => isFalse (fun hh => by injection hh)
  | Except.ok _, Except.error _ => isFalse (fun hh => by injection hh)

namespace Ideenfinder

/-- Python `str`, modelled character by character. -/
abbrev Str := List Char

/-- Python `str.strip()`: drop leading and trailing whitespace. -/
def pyStrip (s : Str) : Str :=
  ((s.dropWhile Char.isWhitespace).reverse.dropWhile Char.isWhitespace).reverse

/-- Python `str.split(sep)` for a one-character separator.  Always returns at
least one (possibly empty) piece, like Python. -/
def splitOnChar (c : Char) : Str → List Str
  | [] => [[]]
  | x :: xs =>
    let r := splitOnChar c xs
    if x = c then [] :: r else (x :: r.headD []) :: r.tail

/-- A Python dict with string keys: an insertion-ordered association list.
`dictSet` keeps the original position of an overwritten key and appends new
keys at the end, exactly like CPython dicts. -/
abbrev Dict (α : Type) : Type := List (String × α)

/-- Dict lookup (`d.get(k)` / `d[k]`). -/
def dictGet? {α : Type} (d : Dict α) (k : String) : Option α :=
  match d with
  | [] => none
  | (k', v) :: rest => if k' = k then some v else dictGet? rest k

/-- Dict item assignment (`d[k] = v`). -/
def dictSet {α : Type} (d : Dict α) (k : String) (v : α) : Dict α :=
  match d with
  | [] => [(k, v)]
  | (k', v') :: rest =>
    if k' = k then (k', v) :: rest else (k', v') :: dictSet rest k v

/-- Python `d.update(frag)`: assign every binding of `frag` into `d`, in
`frag` order.  Existing keys are silently overwritten. -/
def dictUpdate {α : Type} (d : Dict α) (frag : Dict α) : Dict α :=
  frag.foldl (fun acc kv => dictSet acc kv.1 kv.2) d

/-- The keys of a dict, in insertion order. -/
def dictKeys {α : Type} (d : Dict α) : List String := d.map Prod.fst

/-- A similar-project record returned by the Archon knowledge lookup
(`proj['title']`, `proj['description']`). -/
structure Project where
  title : Str
  description : Str
deriving DecidableEq

/-- The consolidated specification assembled by
`IdeenfinderOrchestrator._generate_specification`.  The fixed nested-dict
schema of the source is flattened into one structure field per leaf. -/
structure Spec where
  version : Str
  generated_at : Str
  title : Str
  description : Str
  project_type : Str
  research_report : Str
  features_plan : Str
  techstack_recommendations : Str
  reusability_assets : Str
  similar_projects : List Project
  validation_report : Str
deriving DecidableEq

/-- A value stored in the shared context dict: a string, the
`similar_projects` list, or the `specification` dict itself. -/
inductive Value where
  | vs : Str → Value
  | vprojects : List Project → Value
  | vspec : Spec → Value
deriving DecidableEq

/-- The shared context threaded through every phase (`self.context`). -/
abbrev Context := Dict Value

/-- A result fragment returned by one agent invocation. -/
abbrev Fragment := Dict Value

/-- Projection used where the source guarantees the stored value is a
string. -/
def Value.asStr : Value → Str
  | Value.vs s => s
  | _ => []

/-- Python `context.get(k, dflt)` at a key the source reads as a string. -/
def ctxGetStr (ctx : Context) (k : String) (dflt : Str) : Str :=
  match dictGet? ctx k with
  | some v => v.asStr
  | none => dflt

/-- Python `context.get(k, [])` at the `similar_projects` key. -/
def ctxGetProjects (ctx : Context) (k : String) : List Project :=
  match dictGet? ctx k with
  | some (Value.vprojects l) => l
  | _ => []

/-- The text-generation capability (`ClaudeAPI.send_message`, reached through
`BaseAgent.execute`): system prompt, user message and max-token budget go in,
generated text or a `GenerationError` message comes out.  The wire format is
external to the core. -/
structure GenCap where
  send : Str → Str → Nat → Except Str Str

/-- The Archon knowledge-lookup capability consumed by the reusability scout
(`ArchonRAG.is_enabled` / `ArchonRAG.search_similar_projects`).  Errors are
swallowed inside the collaborator, which degrades to an empty list. -/
structure RagCap where
  enabled : Bool
  search : Str → List Project

/-- System prompt of the research agent.  Prompt text content is outside the
core contract; the prompt is identified by its opening line. -/
def researchSystemPrompt : Str :=
  "You are a market research specialist with expertise in:".toList

/-- System prompt of the feature planner. -/
def featureSystemPrompt : Str :=
  "You are a product planning specialist focused on MVP development.".toList

/-- System prompt of the techstack analyzer. -/
def techstackSystemPrompt : Str :=
  "You are a technical architect with expertise in:".toList

/-- System prompt of the reusability scout. -/
def reusabilitySystemPrompt : Str :=
  "You are a code reusability specialist.".toList

/-- System prompt of the validator. -/
def validatorSystemPrompt : Str :=
  "You are a project validation specialist.".toList

/-- The user message of `ResearchAgent.run`: `idea_description` defaults to
`''` and `target_audience` to `'general users'` when absent. -/
def ResearchAgent.userMessage (ctx : Context) : Str :=
  "Analyze this project idea:\n\nPROJECT IDEA:\n".toList ++
  ctxGetStr ctx "idea_description" [] ++
  "\n\nTARGET AUDIENCE:\n".toList ++
  ctxGetStr ctx "target_audience" "general users".toList ++
  "\n\nProvide comprehensive market research following the format specified.".toList

/-- The result fragment returned by `ResearchAgent.run`. -/
def ResearchAgent.fragment (resp : Str) : Fragment :=
  [("research_report", Value.vs resp),
   ("agent_name", Value.vs "Research Agent".toList),
   ("status", Value.vs "completed".toList)]

/-- `ResearchAgent.run`: builds the user message from the context, calls the
generation capability with `max_tokens = 3000`, and returns the
`research_report` fragment. -/
def ResearchAgent.run (gen : GenCap) (ctx : Context) : Except Str Fragment :=
  match gen.send researchSystemPrompt (ResearchAgent.userMessage ctx) 3000 with
  | Except.error e => Except.error e
  | Except.ok resp => Except.ok (ResearchAgent.fragment resp)

/-- The user message of `FeaturePlannerAgent.run`: `idea_description` and
`research_report` both default to `''` when absent. -/
def FeaturePlanner.userMessage (ctx : Context) : Str :=
  "Create an MVP feature plan for this project:\n\nPROJECT IDEA:\n".toList ++
  ctxGetStr ctx "idea_description" [] ++
  "\n\nMARKET RESEARCH:\n".toList ++
  ctxGetStr ctx "research_report" [] ++
  "\n\nCreate a focused MVP feature list following the format.".toList

/-- The result fragment returned by `FeaturePlannerAgent.run`. -/
def FeaturePlanner.fragment (resp : Str) : Fragment :=
  [("features", Value.vs resp),
   ("agent_name", Value.vs "Feature Planner".toList),
   ("status", Value.vs "completed".toList)]

/-- `FeaturePlannerAgent.run`: calls generation with `max_tokens = 1500` and
returns the `features` fragment. -/
def FeaturePlanner.run (gen : GenCap) (ctx : Context) : Except Str Fragment :=
  match gen.send featureSystemPrompt (FeaturePlanner.userMessage ctx) 1500 with
  | Except.error e => Except.error e
  | Except.ok resp => Except.ok (FeaturePlanner.fragment resp)

/-- The user message of `TechstackAnalyzerAgent.run`: `idea_description` and
`features` both default to `''` when absent. -/
def TechstackAnalyzer.userMessage (ctx : Context) : Str :=
  "Recommend a tech stack for this project:\n\nPROJECT IDEA:\n".toList ++
  ctxGetStr ctx "idea_description" [] ++
  "\n\nPLANNED FEATURES:\n".toList ++
  ctxGetStr ctx "features" [] ++
  "\n\nProvide tech stack recommendations following the format.".toList

/-- The result fragment returned by `TechstackAnalyzerAgent.run`. -/
def TechstackAnalyzer.fragment (resp : Str) : Fragment :=
  [("techstack", Value.vs resp),
   ("agent_name", Value.vs "Techstack Analyzer".toList),
   ("status", Value.vs "completed".toList)]

/-- `TechstackAnalyzerAgent.run`: calls generation with `max_tokens = 1000`
and returns the `techstack` fragment. -/
def TechstackAnalyzer.run (gen : GenCap) (ctx : Context) : Except Str Fragment :=
  match gen.send techstackSystemPrompt (TechstackAnalyzer.userMessage ctx) 1000 with
  | Except.error e => Except.error e
  | Except.ok resp => Except.ok (TechstackAnalyzer.fragment resp)

/-- The Archon-context paragraph built by `ReusabilityScoutAgent.run`. -/
def archonContext (similar_projects : List Project) : Str :=
  if similar_projects.isEmpty then
    "\n\nNOTE: No Archon integration available or no similar projects found.".toList
  else
    "\n\nSIMILAR PROJECTS IN ARCHON:\n".toList ++
    (similar_projects.foldl
      (fun acc p => acc ++ "- ".toList ++ p.title ++ ": ".toList ++
        p.description ++ "\n".toList) [])

/-- The similar-project list the reusability scout obtains: the knowledge
lookup queried with the idea when enabled, `[]` otherwise. -/
def ReusabilityScout.similarProjects (rag : RagCap) (ctx : Context) :
    List Project :=
  if rag.enabled then rag.search (ctxGetStr ctx "idea_description" []) else []

/-- The user message of `ReusabilityScoutAgent.run`. -/
def ReusabilityScout.userMessage (ctx : Context)
    (similar_projects : List Project) : Str :=
  "Identify reusable components for this project:\n\nPROJECT IDEA:\n".toList ++
  ctxGetStr ctx "idea_description" [] ++
  "\n\nPLANNED FEATURES:\n".toList ++
  ctxGetStr ctx "features" [] ++
  "\n".toList ++ archonContext similar_projects ++
  "\n\nIdentify reusable assets following the format.\nBe realistic about what can be reused.".toList

/-- The result fragment returned by `ReusabilityScoutAgent.run`. -/
def ReusabilityScout.fragment (resp : Str) (similar_projects : List Project) :
    Fragment :=
  [("reusable_assets", Value.vs resp),
   ("agent_name", Value.vs "Reusability Scout".toList),
   ("similar_projects", Value.vprojects similar_projects),
   ("status", Value.vs "completed".toList)]

/-- `ReusabilityScoutAgent.run`: queries the knowledge lookup when enabled,
calls generation with `max_tokens = 800`, and returns the `reusable_assets`
fragment together with the `similar_projects` list. -/
def ReusabilityScout.run (gen : GenCap) (rag : RagCap) (ctx : Context) :
    Except Str Fragment :=
  let similar_projects := ReusabilityScout.similarProjects rag ctx
  match gen.send reusabilitySystemPrompt
      (ReusabilityScout.userMessage ctx similar_projects) 800 with
  | Except.error e => Except.error e
  | Except.ok resp => Except.ok (ReusabilityScout.fragment resp similar_projects)

/-- The user message of `ValidatorAgent.run`: a summary of the accumulated
context, each report truncated to its first 500 characters. -/
def ValidatorAgent.userMessage (ctx : Context) : Str :=
  let spec_summary :=
    "\nIDEA: ".toList ++ ctxGetStr ctx "idea_description" [] ++
    "\n\nRESEARCH: ".toList ++ (ctxGetStr ctx "research_report" []).take 500 ++
    "...\n\nFEATURES: ".toList ++ (ctxGetStr ctx "features" []).take 500 ++
    "...\n\nTECHSTACK: ".toList ++ (ctxGetStr ctx "techstack" []).take 500 ++
    "...\n\nREUSABILITY: ".toList ++ (ctxGetStr ctx "reusable_assets" []).take 500 ++
    "...\n".toList
  "Validate this project specification:\n\n".toList ++ spec_summary ++
  "\n\nProvide a thorough validation report following the format.".toList

/-- The result fragment returned by `ValidatorAgent.run`. -/
def ValidatorAgent.fragment (resp : Str) : Fragment :=
  [("validation_report", Value.vs resp),
   ("agent_name", Value.vs "Validator".toList),
   ("status", Value.vs "completed".toList)]

/-- `ValidatorAgent.run`: calls generation with `max_tokens = 1500` and
returns the `validation_report` fragment. -/
def ValidatorAgent.run (gen : GenCap) (ctx : Context) : Except Str Fragment :=
  match gen.send validatorSystemPrompt (ValidatorAgent.userMessage ctx) 1500 with
  | Except.error e => Except.error e
  | Except.ok resp => Except.ok (ValidatorAgent.fragment resp)

/-- The error component of an outcome. -/
def errOf {ε α : Type} : Except ε α → Option ε
  | Except.error e => some e
  | Except.ok _ => none

/-- The first failure observed by `asyncio.gather` over the given completion
schedule: scanning outcomes in completion order, the earliest exception. -/
def firstFailure {ε α : Type} (tasks : List (Except ε α)) (sched : List Nat) :
    Option ε :=
  sched.findSome? fun i => (tasks.get? i).bind errOf

/-- The per-agent results dict built after a fully successful join, in
agent-registration order (the `zip(agents, agent_results)` loop). -/
def okFragments {α : Type} (agents : List (String × Except Str α)) : Dict α :=
  agents.filterMap fun p =>
    match p.2 with
    | Except.ok v => some (p.1, v)
    | Except.error _ => none

/-- `run_agents_parallel`: all agent outcomes are awaited through a bare
`asyncio.gather(*tasks)` (no `return_exceptions=True`).  If any agent raises,
the await re-raises the first exception in completion order and the
per-agent results are discarded; otherwise the results dict maps every agent
name to its fragment, in registration order regardless of the schedule. -/
def run_agents_parallel {α : Type} (agents : List (String × Except Str α))
    (sched : List Nat) : Except Str (Dict α) :=
  match firstFailure (agents.map Prod.snd) sched with
  | some e => Except.error e
  | none => Except.ok (okFragments agents)

/-- `IdeenfinderOrchestrator._extract_title`: the part of the idea before the
first `'.'` when one occurs, otherwise its first 50 characters, stripped. -/
def extract_title (idea : Str) : Str :=
  let title := if idea.contains '.' then (splitOnChar '.' idea).headD []
               else idea.take 50
  pyStrip title

/-- `IdeenfinderOrchestrator._generate_specification`: a pure projection of
the accumulated context into the fixed specification schema.  `now` is the
`datetime.now().isoformat()` timestamp captured at generation time.  The
direct `context['idea_description']` subscript raises `KeyError` when the key
is absent, hence the `Option`. -/
def generate_specification (ctx : Context) (now : Str) : Option Spec :=
  match dictGet? ctx "idea_description" with
  | some (Value.vs idea) => some
      { version := "1.0".toList
        generated_at := now
        title := extract_title idea
        description := idea
        project_type := "web-app".toList
        research_report := ctxGetStr ctx "research_report" []
        features_plan := ctxGetStr ctx "features" []
        techstack_recommendations := ctxGetStr ctx "techstack" []
        reusability_assets := ctxGetStr ctx "reusable_assets" []
        similar_projects := ctxGetProjects ctx "similar_projects"
        validation_report := ctxGetStr ctx "validation_report" [] }
  | _ => none

/-- `IdeenfinderOrchestrator._generate_outputs`: the returned format-to-path
dict.  Writing the file contents is I/O outside the core. -/
def generate_outputs (_spec : Spec) (output_dir : Str) : Dict Str :=
  [("json", output_dir ++ "/project-spec.json".toList),
   ("markdown", output_dir ++ "/project-spec.md".toList),
   ("archon", output_dir ++ "/archon-import.json".toList)]

/-- The observable behaviour of the Archon publishing collaborator during one
`auto_import_project` call: the HTTP exchange either raises somewhere inside
the `try` block, creates the project (HTTP 201 with an id), or is rejected
(non-201, `_create_project` returns `None`). -/
inductive ArchonOutcome where
  | raises : Str → ArchonOutcome
  | created : Str → ArchonOutcome
  | rejected : ArchonOutcome
deriving DecidableEq

/-- The Archon publishing capability (`ArchonIntegration`): the configured
`enabled` flag plus the collaborator's behaviour for this run. -/
structure ArchonCap where
  enabled : Bool
  outcome : ArchonOutcome

/-- `ArchonIntegration.auto_import_project`: returns the created project id,
or `None` when disabled, when project creation is rejected, or when any
exception escapes the request sequence (the `try` swallows it, reports, and
returns `None`). -/
def auto_import_project (arch : ArchonCap) (_spec : Spec) : Option Str :=
  if arch.enabled = false then none
  else match arch.outcome with
    | ArchonOutcome.raises _ => none
    | ArchonOutcome.created pid => some pid
    | ArchonOutcome.rejected => none

/-- The context seeded by `run_ideation` before Phase 1: `output_dir` then
`idea_description`. -/
def seedContext (idea_input output_dir : Str) : Context :=
  dictSet (dictSet [] "output_dir" (Value.vs output_dir))
    "idea_description" (Value.vs idea_input)

/-- The Phase 2 fan-out list, in agent-registration order, every agent
closing over the same context snapshot. -/
def phase2_agents (gen : GenCap) (rag : RagCap) (ctx : Context) :
    List (String × Except Str Fragment) :=
  [("Feature Planner", FeaturePlanner.run gen ctx),
   ("Techstack Analyzer", TechstackAnalyzer.run gen ctx),
   ("Reusability Scout", ReusabilityScout.run gen rag ctx)]

/-- The post-join merge loop of `_run_phase_2`:
`for agent_name, result in results.items(): self.context.update(result)`. -/
def mergeResults (ctx : Context) (results : Dict Fragment) : Context :=
  results.foldl (fun c p => dictUpdate c p.2) ctx

/-- The value returned by a successful `run_ideation`. -/
structure RunResult where
  specification : Spec
  outputs : Dict Str
  output_directory : Str
  archon_project_id : Option Str
deriving DecidableEq

/-- `IdeenfinderOrchestrator.run_ideation`: the whole workflow.  Phase 0
seeds the context; Phase 1 runs the research agent and merges its fragment;
Phase 2 fans out the three planning agents and merges all fragments in
registration order; Phase 3 consolidates the specification; Phase 4 runs the
validator and merges its fragment; Phase 5 computes the output locations and,
when enabled, auto-imports to Archon.  An uncaught exception aborts the run;
the error carries the exception message together with the context as already
mutated at the point of the raise. -/
def run_ideation (gen : GenCap) (rag : RagCap) (arch : ArchonCap)
    (idea_input output_dir now : Str) (sched : List Nat) :
    Except (Str × Context) (RunResult × Context) :=
  let ctx1 := seedContext idea_input output_dir
  match ResearchAgent.run gen ctx1 with
  | Except.error e => Except.error (e, ctx1)
  | Except.ok frag1 =>
    let ctx2 := dictUpdate ctx1 frag1
    match run_agents_parallel (phase2_agents gen rag ctx2) sched with
    | Except.error e => Except.error (e, ctx2)
    | Except.ok results =>
      let ctx3 := mergeResults ctx2 results
      match generate_specification ctx3 now with
      | none => Except.error ("KeyError: idea_description".toList, ctx3)
      | some spec =>
        let ctx4 := dictSet ctx3 "specification" (Value.vspec spec)
        match ValidatorAgent.run gen ctx4 with
        | Except.error e => Except.error (e, ctx4)
        | Except.ok frag4 =>
          let ctx5 := dictUpdate ctx4 frag4
          let outputs := generate_outputs spec output_dir
          let project_id :=
            if arch.enabled then auto_import_project arch spec else none
          Except.ok
            ({ specification := spec
               outputs := outputs
               output_directory := output_dir
               archon_project_id := project_id }, ctx5)

/-- A task extracted from the features text by
`ArchonIntegration._extract_tasks`. -/
structure Task where
  title : Str
  description : Str
deriving DecidableEq

/-- The characters `lstrip`ped off a list-item line before the title. -/
def taskIndicatorChars : Str := "0123456789.-* ".toList

/-- A stripped line opens a task when it is non-empty and starts with a
digit, `'-'` or `'*'`. -/
def isTaskIndicator (line : Str) : Bool :=
  match line with
  | [] => false
  | c :: _ => c.isDigit || c = '-' || c = '*'

/-- The loop state of `_extract_tasks`: tasks collected so far and the task
currently being accumulated. -/
structure ExtractState where
  tasks : List Task
  current : Option Task
deriving DecidableEq

/-- One iteration of the `_extract_tasks` line loop. -/
def extract_tasks_step (st : ExtractState) (rawLine : Str) : ExtractState :=
  let line := pyStrip rawLine
  if isTaskIndicator line then
    let title := pyStrip (line.dropWhile (fun c => taskIndicatorChars.contains c))
    if !title.isEmpty && title.length > 3 then
      { tasks := st.tasks ++ st.current.toList
        current := some { title := title.take 100, description := [] } }
    else st
  else if st.current.isSome && !line.isEmpty then
    match st.current with
    | some t =>
      let t2 : Task := { t with description := t.description ++ line ++ "\n".toList }
      { st with current := some t2 }
    | none => st
  else st

/-- The tasks collected by the `_extract_tasks` loop, before the
default-task fallback and the ten-task cap. -/
def extract_tasks_raw (features_text : Str) : List Task :=
  let st := (splitOnChar '\n' features_text).foldl extract_tasks_step
    { tasks := [], current := none }
  st.tasks ++ st.current.toList

/-- The fallback task created when no list item was found. -/
def default_task (project_title : Str) : Task :=
  { title := "Implement ".toList ++ project_title
    description := "Implement the project according to the specification".toList }

/-- `ArchonIntegration._extract_tasks`: scan the features text for list
items, fall back to a single default task, and cap the result at ten
tasks. -/
def extract_tasks (features_text project_title : Str) : List Task :=
  let tasks := extract_tasks_raw features_text
  (if tasks.isEmpty then [default_task project_title] else tasks).take 10

/-- A concrete idea input used by the concrete-run theorems. -/
def testIdea : Str := "A recipe sharing app. For cooks.".toList

/-- A concrete output directory. -/
def outDirT : Str := "out".toList

/-- A concrete generation timestamp. -/
def nowT : Str := "2026-01-01T10:00:00".toList

/-- A generation capability that answers every agent successfully, with a
distinct constant text per agent role. -/
def genT : GenCap :=
  { send := fun sys _user _tok =>
      if sys = researchSystemPrompt then Except.ok "RRESP".toList
      else if sys = featureSystemPrompt then Except.ok "FRESP".toList
      else if sys = techstackSystemPrompt then Except.ok "TRESP".toList
      else if sys = reusabilitySystemPrompt then Except.ok "URESP".toList
      else Except.ok "VRESP".toList }

/-- A generation capability for which exactly the techstack agent fails. -/
def genFail : GenCap :=
  { send := fun sys _user _tok =>
      if sys = techstackSystemPrompt then
        Except.error "GenerationError: provider timeout".toList
      else if sys = researchSystemPrompt then Except.ok "RRESP".toList
      else if sys = featureSystemPrompt then Except.ok "FRESP".toList
      else if sys = reusabilitySystemPrompt then Except.ok "URESP".toList
      else Except.ok "VRESP".toList }

/-- A generation capability that always returns the same text. -/
def genOkR : GenCap := { send := fun _sys _user _tok => Except.ok "R".toList }

/-- Knowledge lookup disabled. -/
def ragOff : RagCap := { enabled := false, search := fun _ => [] }

/-- Archon publishing disabled. -/
def archOff : ArchonCap := { enabled := false, outcome := ArchonOutcome.rejected }

/-- The seeded context of the concrete run. -/
def ctx1T : Context := seedContext testIdea outDirT

/-- The research fragment produced in the concrete run. -/
def frag1T : Fragment :=
  [("research_report", Value.vs "RRESP".toList),
   ("agent_name", Value.vs "Research Agent".toList),
   ("status", Value.vs "completed".toList)]

/-- The context after the Phase 1 merge in the concrete run. -/
def ctx2T : Context := dictUpdate ctx1T frag1T

/-- The context after the Phase 2 fan-out merge in the concrete run. -/
def ctx3T : Context :=
  match run_agents_parallel (phase2_agents genT ragOff ctx2T) [0, 1, 2] with
  | Except.ok results => mergeResults ctx2T results
  | Except.error _ => ctx2T

/-- The concrete end-to-end run. -/
def testRun : Except (Str × Context) (RunResult × Context) :=
  run_ideation genT ragOff archOff testIdea outDirT nowT [0, 1, 2]

/-- Lookup after item assignment: the assigned key reads back the new value,
every other key is untouched. -/
theorem dictGet_dictSet {α : Type} (d : Dict α) (k k' : String) (v : α) :
    dictGet? (dictSet d k v) k' = if k = k' then some v else dictGet? d k' := by
  induction d with
  | nil => simp [dictSet, dictGet?]
  | cons hd tl ih =>
    obtain ⟨k0, v0⟩ := hd
    by_cases h0 : k0 = k
    · subst h0
      by_cases h1 : k0 = k'
      · subst h1; simp [dictSet, dictGet?]
      · simp [dictSet, dictGet?, h1]
    · by_cases h1 : k0 = k'
      · subst h1
        have hk : ¬ k = k0 := fun h => h0 h.symm
        simp [dictSet, dictGet?, h0, hk]
      · simp [dictSet, dictGet?, h0, h1, ih]

/-- A key absent from a dict reads as `none`. -/
theorem dictGet_eq_none_of_not_mem {α : Type} (d : Dict α) (k : String)
    (h : k ∉ dictKeys d) : dictGet? d k = none := by
  induction d with
  | nil => rfl
  | cons hd tl ih =>
    simp only [dictKeys, List.map_cons, List.mem_cons, not_or] at h
    obtain ⟨k0, v0⟩ := hd
    simp only [dictGet?]
    rw [if_neg (fun he => h.1 he.symm)]
    exact ih h.2

/-- `dict.update` leaves keys that the fragment does not bind unchanged. -/
theorem dictGet_dictUpdate_of_none {α : Type} (frag : Dict α) (d : Dict α)
    (k : String) (h : dictGet? frag k = none) :
    dictGet? (dictUpdate d frag) k = dictGet? d k := by
  induction frag generalizing d with
  | nil => rfl
  | cons hd tl ih =>
    obtain ⟨k0, v0⟩ := hd
    simp only [dictGet?] at h
    by_cases h0 : k0 = k
    · simp [h0] at h
    · simp only [h0, if_false] at h
      show dictGet? (dictUpdate (dictSet d k0 v0) tl) k = dictGet? d k
      rw [ih (dictSet d k0 v0) h, dictGet_dictSet, if_neg h0]

/-- `dict.update` makes every key bound by the fragment read the fragment's
value: an existing binding is silently overwritten, never rejected. -/
theorem dictGet_dictUpdate_of_some {α : Type} (frag : Dict α) (d : Dict α)
    (k : String) (v : α) (hnd : (dictKeys frag).Nodup)
    (h : dictGet? frag k = some v) :
    dictGet? (dictUpdate d frag) k = some v := by
  induction frag generalizing d with
  | nil => simp [dictGet?] at h
  | cons hd tl ih =>
    obtain ⟨k0, v0⟩ := hd
    simp only [dictKeys, List.map_cons, List.nodup_cons] at hnd
    simp only [dictGet?] at h
    by_cases h0 : k0 = k
    · subst h0
      simp only [if_pos rfl] at h
      obtain rfl : v0 = v := by injection h
      show dictGet? (dictUpdate (dictSet d k0 v0) tl) k0 = some v0
      rw [dictGet_dictUpdate_of_none tl _ _
          (dictGet_eq_none_of_not_mem tl k0 hnd.1),
        dictGet_dictSet, if_pos rfl]
    · simp only [h0, if_false] at h
      show dictGet? (dictUpdate (dictSet d k0 v0) tl) k = some v
      exact ih (dictSet d k0 v0) hnd.2 h

/-- C2, amended: the merge of a result fragment into the context is Python
`dict.update`: it is total (no `DuplicateKeyError` exists), and a key the
fragment binds is silently overwritten with the fragment's value, while keys
the fragment does not bind keep their earlier value. -/
theorem c2_merge_overwrites (ctx : Context) (frag : Fragment) (k : String)
    (hnd : (dictKeys frag).Nodup) :
    dictGet? (dictUpdate ctx frag) k =
      match dictGet? frag k with
      | some v => some v
      | none => dictGet? ctx k := by
  cases h : dictGet? frag k with
  | none => exact dictGet_dictUpdate_of_none frag ctx k h
  | some v => exact dictGet_dictUpdate_of_some frag ctx k v hnd h

/-- Witness for `c2_merge_overwrites` at the concrete Phase 1 merge. -/
theorem c2_merge_overwrites_witness :
    dictGet? (dictUpdate ctx1T frag1T) "agent_name" =
      match dictGet? frag1T "agent_name" with
      | some v => some v
      | none => dictGet? ctx1T "agent_name" :=
  c2_merge_overwrites ctx1T frag1T "agent_name" (by decide)

/-- C2, counterexample: in the concrete run, Phase 1 writes
`agent_name = "Research Agent"`; the Phase 2 merge overwrites it (last merged
fragment wins) and no error of any kind is raised — refuting both the
`DuplicateKeyError` behaviour and the claim that a written key is unchanged
by later merges. -/
theorem c2_counterexample :
    dictGet? ctx2T "agent_name" = some (Value.vs "Research Agent".toList) ∧
    dictGet? ctx3T "agent_name" = some (Value.vs "Reusability Scout".toList) ∧
    Value.vs "Research Agent".toList ≠ Value.vs "Reusability Scout".toList ∧
    (run_agents_parallel (phase2_agents genT ragOff ctx2T) [0, 1, 2]).toOption
      ≠ none := by decide

/-- The failure test applied by the join depends only on the per-agent error
skeleton, not on the success payloads. -/
theorem bindErr_eq {α : Type} (A : List (String × Except Str α)) (i : Nat) :
    ((A.map Prod.snd).get? i).bind errOf
      = ((A.map fun p => errOf p.2).get? i).getD none := by
  induction A generalizing i with
  | nil => rfl
  | cons hd tl ih =>
    cases i with
    | zero => cases hd.2 <;> rfl
    | succ n => simpa using ih n

/-- Unfolding of the first-failure scan on a cons schedule. -/
theorem firstFailure_cons {ε α : Type} (tasks : List (Except ε α)) (i : Nat)
    (rest : List Nat) :
    firstFailure tasks (i :: rest)
      = match (tasks.get? i).bind errOf with
        | some e => some e
        | none => firstFailure tasks rest := rfl

/-- Two fan-out phases with the same error skeleton observe the same first
failure under every completion schedule. -/
theorem firstFailure_congr {α β : Type} (A : List (String × Except Str α))
    (B : List (String × Except Str β))
    (h : (A.map fun p => errOf p.2) = (B.map fun p => errOf p.2))
    (sched : List Nat) :
    firstFailure (A.map Prod.snd) sched = firstFailure (B.map Prod.snd) sched := by
  induction sched with
  | nil => rfl
  | cons i rest ih =>
    rw [firstFailure_cons, firstFailure_cons, bindErr_eq, bindErr_eq, h]
    cases ((B.map fun p => errOf p.2).get? i).getD none with
    | none => exact ih
    | some e => rfl

/-- C1, amended: when any agent of a fan-out phase fails, `run_agents_parallel`
re-raises the first exception in completion order, alone, exactly as the bare
`asyncio.gather(*tasks)` it wraps.  No aggregate error exists: the raised
value is the same for any two phases whose agents fail identically but whose
successful agents produce arbitrarily different fragments, so it cannot carry
the sibling outcomes. -/
theorem c1_gather_first_error {α : Type} (agents agents' : List (String × Except Str α))
    (sched : List Nat) (e : Str)
    (hsk : (agents.map fun p => errOf p.2) = (agents'.map fun p => errOf p.2))
    (hf : firstFailure (agents.map Prod.snd) sched = some e) :
    run_agents_parallel agents sched = Except.error e ∧
    run_agents_parallel agents' sched = Except.error e := by
  have h2 := firstFailure_congr agents agents' hsk sched
  refine ⟨?_, ?_⟩ <;> unfold run_agents_parallel
  · rw [hf]
  · rw [← h2, hf]

/-- Witness for `c1_gather_first_error` on a concrete three-agent phase whose
second agent fails. -/
theorem c1_gather_first_error_witness :
    run_agents_parallel
        [("Feature Planner", Except.ok "f1".toList),
         ("Techstack Analyzer", (Except.error "boom".toList : Except Str Str)),
         ("Reusability Scout", Except.ok "u1".toList)] [0, 1, 2]
      = Except.error "boom".toList ∧
    run_agents_parallel
        [("Feature Planner", Except.ok "f2".toList),
         ("Techstack Analyzer", (Except.error "boom".toList : Except Str Str)),
         ("Reusability Scout", Except.ok "u2".toList)] [0, 1, 2]
      = Except.error "boom".toList :=
  c1_gather_first_error _ _ [0, 1, 2] "boom".toList (by decide) (by decide)

/-- C1, counterexample: with one failing agent among three, the executor's
result is the failing agent's lone exception; it is byte-for-byte the same
value when the sibling agents' success fragments change, so it carries no
success fragments and no per-agent outcome aggregate — refuting the claimed
`ParallelPhaseError` behaviour. -/
theorem c1_counterexample :
    run_agents_parallel
        [("Feature Planner", Except.ok "fragA".toList),
         ("Techstack Analyzer", (Except.error "GenerationError".toList : Except Str Str)),
         ("Reusability Scout", Except.ok "fragB".toList)] [0, 1, 2]
      = Except.error "GenerationError".toList ∧
    run_agents_parallel
        [("Feature Planner", Except.ok "fragC".toList),
         ("Techstack Analyzer", (Except.error "GenerationError".toList : Except Str Str)),
         ("Reusability Scout", Except.ok "fragD".toList)] [0, 1, 2]
      = Except.error "GenerationError".toList ∧
    ("fragA".toList : Str) ≠ "fragC".toList := by decide

/-- No agent outcome is an error exactly when the join observes no failure. -/
theorem firstFailure_eq_none {α : Type} (agents : List (String × Except Str α))
    (sched : List Nat) (hok : ∀ p ∈ agents, errOf p.2 = none) :
    firstFailure (agents.map Prod.snd) sched = none := by
  induction sched with
  | nil => rfl
  | cons i rest ih =>
    have hi : ((agents.map Prod.snd).get? i).bind errOf = none := by
      cases h : (agents.map Prod.snd).get? i with
      | none => rfl
      | some t =>
        have ht : t ∈ agents.map Prod.snd := List.get?_mem h
        obtain ⟨p, hp, rfl⟩ := List.mem_map.mp ht
        simpa using hok p hp
    rw [firstFailure_cons, hi]
    exact ih

/-- With every agent successful, the joined dict has one entry per agent. -/
theorem okFragments_length {α : Type} (agents : List (String × Except Str α))
    (hok : ∀ p ∈ agents, errOf p.2 = none) :
    (okFragments agents).length = agents.length := by
  induction agents with
  | nil => rfl
  | cons p rest ih =>
    cases hp : p.2 with
    | error e =>
      have := hok p (List.mem_cons_self p rest)
      rw [hp] at this
      simp [errOf] at this
    | ok v =>
      have : okFragments (p :: rest) = (p.1, v) :: okFragments rest := by
        simp [okFragments, hp]
      rw [this]
      simp [ih fun q hq => hok q (List.mem_cons_of_mem p hq)]

/-- With every agent successful, the joined dict's keys are exactly the
requested agent names, in registration order. -/
theorem okFragments_keys {α : Type} (agents : List (String × Except Str α))
    (hok : ∀ p ∈ agents, errOf p.2 = none) :
    dictKeys (okFragments agents) = agents.map Prod.fst := by
  induction agents with
  | nil => rfl
  | cons p rest ih =>
    cases hp : p.2 with
    | error e =>
      have := hok p (List.mem_cons_self p rest)
      rw [hp] at this
      simp [errOf] at this
    | ok v =>
      have : okFragments (p :: rest) = (p.1, v) :: okFragments rest := by
        simp [okFragments, hp]
      rw [this]
      show p.1 :: dictKeys (okFragments rest) = p.1 :: rest.map Prod.fst
      rw [ih fun q hq => hok q (List.mem_cons_of_mem p hq)]

/-- C7: when all agents of a fan-out phase succeed, the returned mapping is
the same for every completion schedule, and (for pairwise-distinct agent
names) contains exactly one entry per requested agent name, in registration
order. -/
theorem c7_join_complete {α : Type} (agents : List (String × Except Str α))
    (sched sched' : List Nat)
    (hok : ∀ p ∈ agents, errOf p.2 = none)
    (hnd : (agents.map Prod.fst).Nodup) :
    run_agents_parallel agents sched = Except.ok (okFragments agents) ∧
    run_agents_parallel agents sched' = Except.ok (okFragments agents) ∧
    (okFragments agents).length = agents.length ∧
    dictKeys (okFragments agents) = agents.map Prod.fst ∧
    (dictKeys (okFragments agents)).Nodup := by
  refine ⟨?_, ?_, okFragments_length agents hok, okFragments_keys agents hok, ?_⟩
  · unfold run_agents_parallel
    rw [firstFailure_eq_none agents sched hok]
  · unfold run_agents_parallel
    rw [firstFailure_eq_none agents sched' hok]
  · rw [okFragments_keys agents hok]; exact hnd

/-- Witness for `c7_join_complete` on a concrete all-success phase under two
different completion schedules. -/
theorem c7_join_complete_witness :
    run_agents_parallel
        [("Feature Planner", (Except.ok "f".toList : Except Str Str)),
         ("Techstack Analyzer", Except.ok "t".toList),
         ("Reusability Scout", Except.ok "u".toList)] [0, 1, 2]
      = Except.ok [("Feature Planner", "f".toList),
          ("Techstack Analyzer", "t".toList),
          ("Reusability Scout", "u".toList)] ∧
    run_agents_parallel
        [("Feature Planner", (Except.ok "f".toList : Except Str Str)),
         ("Techstack Analyzer", Except.ok "t".toList),
         ("Reusability Scout", Except.ok "u".toList)] [2, 0, 1]
      = Except.ok [("Feature Planner", "f".toList),
          ("Techstack Analyzer", "t".toList),
          ("Reusability Scout", "u".toList)] := by
  have h := c7_join_complete
    [("Feature Planner", (Except.ok "f".toList : Except Str Str)),
     ("Techstack Analyzer", Except.ok "t".toList),
     ("Reusability Scout", Except.ok "u".toList)] [0, 1, 2] [2, 0, 1]
    (by decide) (by decide)
  exact ⟨h.1, h.2.1⟩

/-- Reading back the key just assigned. -/
theorem ctxGetStr_dictSet_self (ctx : Context) (k : String) (s d : Str) :
    ctxGetStr (dictSet ctx k (Value.vs s)) k d = s := by
  unfold ctxGetStr
  rw [dictGet_dictSet, if_pos rfl]
  rfl

/-- Assigning one key does not change reads of another. -/
theorem ctxGetStr_dictSet_other (ctx : Context) (k k' : String) (v : Value)
    (d : Str) (h : ¬ k = k') :
    ctxGetStr (dictSet ctx k v) k' d = ctxGetStr ctx k' d := by
  unfold ctxGetStr
  rw [dictGet_dictSet, if_neg h]

/-- A missing key reads as the supplied default. -/
theorem ctxGetStr_of_none (ctx : Context) (k : String) (d : Str)
    (h : dictGet? ctx k = none) : ctxGetStr ctx k d = d := by
  unfold ctxGetStr
  rw [h]

/-- A successful research run returns exactly the three-key research
fragment. -/
theorem researchFragment_shape (gen : GenCap) (ctx : Context) (frag : Fragment)
    (h : ResearchAgent.run gen ctx = Except.ok frag) :
    ∃ resp, frag = ResearchAgent.fragment resp := by
  unfold ResearchAgent.run at h
  cases hsend : gen.send researchSystemPrompt (ResearchAgent.userMessage ctx) 3000 with
  | error e => rw [hsend] at h; exact absurd h (by simp)
  | ok resp =>
    rw [hsend] at h
    exact ⟨resp, by injection h with h'; exact h'.symm⟩

/-- C4: if the research phase succeeded and any agent of the Phase 2 fan-out
fails, the workflow aborts with that failure: the error carries the context
exactly as it stood when the fan-out started (no Phase 2 fragment — not even
a successful sibling's — was merged), and that context contains no
`specification` key, so Consolidate and all later phases never ran. -/
theorem c4_fanout_failure_short_circuits (gen : GenCap) (rag : RagCap)
    (arch : ArchonCap) (idea output_dir now : Str) (sched : List Nat)
    (frag1 : Fragment) (e : Str)
    (h1 : ResearchAgent.run gen (seedContext idea output_dir) = Except.ok frag1)
    (h2 : run_agents_parallel
        (phase2_agents gen rag (dictUpdate (seedContext idea output_dir) frag1))
        sched = Except.error e) :
    run_ideation gen rag arch idea output_dir now sched
      = Except.error (e, dictUpdate (seedContext idea output_dir) frag1) ∧
    dictGet? (dictUpdate (seedContext idea output_dir) frag1) "specification"
      = none := by
  constructor
  · simp only [run_ideation, h1, h2]
  · obtain ⟨resp, rfl⟩ := researchFragment_shape gen _ frag1 h1
    show dictGet? (dictSet (dictSet (dictSet (seedContext idea output_dir)
        "research_report" (Value.vs resp))
        "agent_name" (Value.vs "Research Agent".toList))
        "status" (Value.vs "completed".toList)) "specification" = none
    rw [dictGet_dictSet, if_neg (by decide), dictGet_dictSet, if_neg (by decide),
      dictGet_dictSet, if_neg (by decide)]
    unfold seedContext
    rw [dictGet_dictSet, if_neg (by decide), dictGet_dictSet, if_neg (by decide)]
    rfl

/-- Witness for `c4_fanout_failure_short_circuits`: the concrete run whose
techstack agent fails. -/
theorem c4_witness :
    run_ideation genFail ragOff archOff testIdea outDirT nowT [0, 1, 2]
      = Except.error ("GenerationError: provider timeout".toList,
          dictUpdate (seedContext testIdea outDirT) frag1T) ∧
    dictGet? (dictUpdate (seedContext testIdea outDirT) frag1T) "specification"
      = none :=
  c4_fanout_failure_short_circuits genFail ragOff archOff testIdea outDirT
    nowT [0, 1, 2] frag1T "GenerationError: provider timeout".toList
    (by decide) (by decide)

/-- C8: a failure of the Archon auto-import collaborator (an exception inside
`auto_import_project`, which is caught and turned into `None`) leaves the
workflow outcome identical to a run with publishing disabled — the run still
succeeds with the full specification, outputs and context — and the returned
`archon_project_id` is `None`. -/
theorem c8_archon_failure_reported_not_fatal (gen : GenCap) (rag : RagCap)
    (idea output_dir now : Str) (sched : List Nat) (m : Str)
    (o : ArchonOutcome) :
    run_ideation gen rag { enabled := true, outcome := ArchonOutcome.raises m }
        idea output_dir now sched
      = run_ideation gen rag { enabled := false, outcome := o }
          idea output_dir now sched ∧
    ((run_ideation gen rag { enabled := true, outcome := ArchonOutcome.raises m }
          idea output_dir now sched).toOption.map
        (fun p => p.1.archon_project_id)).getD none = none := by
  constructor <;>
  · cases h1 : ResearchAgent.run gen (seedContext idea output_dir) with
    | error e => simp [run_ideation, h1, Except.toOption]
    | ok frag1 =>
      cases h2 : run_agents_parallel
          (phase2_agents gen rag (dictUpdate (seedContext idea output_dir) frag1))
          sched with
      | error e => simp [run_ideation, h1, h2, Except.toOption]
      | ok results =>
        cases h3 : generate_specification
            (mergeResults (dictUpdate (seedContext idea output_dir) frag1) results)
            now with
        | none => simp [run_ideation, h1, h2, h3, Except.toOption]
        | some spec =>
          cases h4 : ValidatorAgent.run gen
              (dictSet
                (mergeResults (dictUpdate (seedContext idea output_dir) frag1)
                  results)
                "specification" (Value.vspec spec)) with
          | error e => simp [run_ideation, h1, h2, h3, h4, Except.toOption]
          | ok frag4 =>
            simp [run_ideation, h1, h2, h3, h4, Except.toOption,
              auto_import_project]

/-- C5, counterexample: the research agent, run on a context that lacks
`idea_description` entirely, does not fail with any missing-field error — it
proceeds with the empty-string default and returns a completed fragment. -/
theorem c5_counterexample :
    dictGet? ([] : Context) "idea_description" = none ∧
    ResearchAgent.run genOkR [] = Except.ok (ResearchAgent.fragment "R".toList) := by
  decide

/-- C5, amended: a statically required key that is absent from the context
does not make the agent fail; the agent substitutes the source's default (the
empty string) and proceeds, so a context missing the key is observationally
identical to one carrying the key bound to the empty string.  Shown for the
research agent (`idea_description`) and the feature planner
(`research_report`). -/
theorem c5_missing_key_uses_default (gen : GenCap) (ctx : Context)
    (h1 : dictGet? ctx "idea_description" = none)
    (h2 : dictGet? ctx "research_report" = none) :
    ResearchAgent.run gen ctx
      = ResearchAgent.run gen (dictSet ctx "idea_description" (Value.vs [])) ∧
    FeaturePlanner.run gen ctx
      = FeaturePlanner.run gen (dictSet ctx "research_report" (Value.vs [])) := by
  constructor
  · have hm : ResearchAgent.userMessage ctx
        = ResearchAgent.userMessage (dictSet ctx "idea_description" (Value.vs [])) := by
      unfold ResearchAgent.userMessage
      rw [ctxGetStr_of_none ctx _ _ h1, ctxGetStr_dictSet_self,
        ctxGetStr_dictSet_other _ _ _ _ _ (by decide)]
    unfold ResearchAgent.run
    rw [hm]
  · have hm : FeaturePlanner.userMessage ctx
        = FeaturePlanner.userMessage (dictSet ctx "research_report" (Value.vs [])) := by
      unfold FeaturePlanner.userMessage
      rw [ctxGetStr_of_none ctx _ _ h2, ctxGetStr_dictSet_self,
        ctxGetStr_dictSet_other _ _ _ _ _ (by decide)]
    unfold FeaturePlanner.run
    rw [hm]

/-- Witness for `c5_missing_key_uses_default` on the empty context. -/
theorem c5_missing_key_witness :
    ResearchAgent.run genOkR []
      = ResearchAgent.run genOkR (dictSet [] "idea_description" (Value.vs [])) ∧
    FeaturePlanner.run genOkR []
      = FeaturePlanner.run genOkR (dictSet [] "research_report" (Value.vs [])) :=
  c5_missing_key_uses_default genOkR [] (by decide) (by decide)

/-- C6, counterexample: consolidating the very same merged context at two
different wall-clock instants yields two different Specifications — the
`generated_at` field embeds `datetime.now()`, so the artifact is not
byte-identical across runs. -/
theorem c6_counterexample :
    generate_specification ctx3T "2026-01-01T10:00:00".toList
      ≠ generate_specification ctx3T "2026-01-01T11:00:00".toList := by
  decide

/-- C6, amended: apart from the `generated_at` timestamp, the consolidated
Specification is a pure function of the merged context: for the same context
(same fragments merged in the same registration order) it is byte-identical
whatever the generation instants were. -/
theorem c6_deterministic_up_to_timestamp (ctx : Context) (now1 now2 : Str) :
    (generate_specification ctx now1).map (fun s => { s with generated_at := [] })
      = (generate_specification ctx now2).map
          (fun s => { s with generated_at := [] }) := by
  unfold generate_specification
  cases h : dictGet? ctx "idea_description" with
  | none => rfl
  | some v => cases v <;> rfl

/-- C3, code bug: in a fully successful end-to-end run, the Specification
handed to the output stage and returned to the caller has an empty
`validation` section, even though the validator ran and its report was merged
into the context.  The source builds the Specification at Phase 3, before the
Phase 4 validation, and never back-fills the `validation.report` field it
reserves for exactly that report. -/
theorem c3_validation_section_empty :
    testRun.toOption.map (fun p => p.1.specification.validation_report)
      = some [] ∧
    testRun.toOption.map (fun p => ctxGetStr p.2 "validation_report" [])
      = some "VRESP".toList ∧
    ("VRESP".toList : Str) ≠ [] := by decide

/-- A task title accepted by the extraction loop: non-empty and at most 100
characters. -/
def GoodTitle (t : Task) : Prop := t.title ≠ [] ∧ t.title.length ≤ 100

/-- Each line-loop iteration preserves title soundness of the accumulated
tasks. -/
theorem extract_step_titles (st : ExtractState) (rawLine : Str)
    (h1 : ∀ t ∈ st.tasks, GoodTitle t)
    (h2 : ∀ t ∈ st.current.toList, GoodTitle t) :
    (∀ t ∈ (extract_tasks_step st rawLine).tasks, GoodTitle t) ∧
    (∀ t ∈ (extract_tasks_step st rawLine).current.toList, GoodTitle t) := by
  simp only [extract_tasks_step]
  split
  · split
    case isTrue hvalid =>
      simp only [Bool.and_eq_true, decide_eq_true_eq] at hvalid
      have hlt := hvalid.2
      constructor
      · intro t ht
        rcases List.mem_append.mp ht with h | h
        exacts [h1 t h, h2 t h]
      · intro t ht
        simp only [Option.toList_some, List.mem_singleton] at ht
        subst ht
        simp only [GoodTitle]
        constructor
        · intro hnil
          have hl := congrArg List.length hnil
          simp only [List.length_take, List.length_nil] at hl
          omega
        · simp only [List.length_take]
          omega
    case isFalse => exact ⟨h1, h2⟩
  · split
    · cases hcur : st.current with
      | none => exact ⟨h1, h2⟩
      | some t0 =>
        constructor
        · intro t ht
          exact h1 t ht
        · intro t ht
          simp only [Option.toList_some, List.mem_singleton] at ht
          subst ht
          exact h2 t0 (by rw [hcur]; exact List.mem_singleton_self t0)
    · exact ⟨h1, h2⟩

/-- The whole line loop preserves title soundness. -/
theorem extract_fold_titles (lines : List Str) (st : ExtractState)
    (h1 : ∀ t ∈ st.tasks, GoodTitle t)
    (h2 : ∀ t ∈ st.current.toList, GoodTitle t) :
    (∀ t ∈ (lines.foldl extract_tasks_step st).tasks, GoodTitle t) ∧
    (∀ t ∈ (lines.foldl extract_tasks_step st).current.toList, GoodTitle t) := by
  induction lines generalizing st with
  | nil => exact ⟨h1, h2⟩
  | cons l rest ih =>
    obtain ⟨g1, g2⟩ := extract_step_titles st l h1 h2
    exact ih (extract_tasks_step st l) g1 g2

/-- Every task the extraction loop collects has a non-empty title of at most
100 characters. -/
theorem extract_tasks_raw_titles (ft : Str) :
    ∀ t ∈ extract_tasks_raw ft, GoodTitle t := by
  unfold extract_tasks_raw
  obtain ⟨g1, g2⟩ := extract_fold_titles (splitOnChar '\n' ft)
    { tasks := [], current := none } (by simp) (by simp)
  intro t ht
  rcases List.mem_append.mp ht with h | h
  exacts [g1 t h, g2 t h]

/-- C9, amended: `_extract_tasks` always returns a non-empty list of at most
ten tasks; every extracted task's title is non-empty and at most 100
characters, except that the fallback task created when no list item is found
is titled `Implement <project title>` without truncation (so it exceeds 100
characters for project titles longer than 90); with no list items the result
is exactly that single default task. -/
theorem c9_extract_tasks_bounds (ft pt : Str) :
    extract_tasks ft pt ≠ [] ∧
    (extract_tasks ft pt).length ≤ 10 ∧
    (∀ t ∈ extract_tasks ft pt, t.title ≠ [] ∧
      (t.title.length ≤ 100 ∨ t.title = "Implement ".toList ++ pt)) ∧
    (extract_tasks_raw ft = [] → extract_tasks ft pt = [default_task pt]) := by
  refine ⟨?_, ?_, ?_, ?_⟩
  · unfold extract_tasks
    cases hr : extract_tasks_raw ft with
    | nil => simp
    | cons a l => simp
  · unfold extract_tasks
    exact List.length_take_le 10 _
  · intro t ht
    unfold extract_tasks at ht
    have ht2 := List.take_subset 10 _ ht
    by_cases hr : (extract_tasks_raw ft).isEmpty
    · rw [if_pos hr] at ht2
      simp only [List.mem_singleton] at ht2
      subst ht2
      refine ⟨?_, Or.inr rfl⟩
      intro hnil
      exact absurd (congrArg List.length hnil) (by simp [default_task])
    · rw [if_neg hr] at ht2
      have hg := extract_tasks_raw_titles ft t ht2
      exact ⟨hg.1, Or.inl hg.2⟩
  · intro hr
    unfold extract_tasks
    rw [hr]
    rfl

/-- Witness for `c9_extract_tasks_bounds`: a feature text without list items
yields exactly the default task. -/
theorem c9_extract_tasks_bounds_witness :
    extract_tasks [] "recipes".toList = [default_task "recipes".toList] :=
  (c9_extract_tasks_bounds [] "recipes".toList).2.2.2 (by decide)

/-- C9, counterexample: with an empty features text and a 91-character
project title, the single returned task is the untruncated default task,
whose title has 101 characters — refuting the claimed 100-character bound. -/
theorem c9_counterexample :
    extract_tasks [] (List.replicate 91 'a')
      = [{ title := "Implement ".toList ++ List.replicate 91 'a',
           description :=
             "Implement the project according to the specification".toList }] ∧
    ("Implement ".toList ++ List.replicate 91 'a').length = 101 := by decide

/-- `split(sep)[0]` is the prefix before the first separator. -/
theorem splitOnChar_headD (c : Char) (s : Str) :
    (splitOnChar c s).headD [] = s.takeWhile (fun x => x != c) := by
  induction s with
  | nil => rfl
  | cons x xs ih =>
    simp only [splitOnChar]
    by_cases h : x = c
    · subst h
      simp [List.takeWhile_cons]
    · simp only [if_neg h, List.headD_cons, List.takeWhile_cons]
      simp [h]
      simpa [List.headD_eq_head?] using ih

/-- The claimed title computation, stated in the spec's own words: the part
of the idea before its first `'.'` when one occurs, otherwise the first 50
characters, stripped of surrounding whitespace. -/
def titleSpec (idea : Str) : Str :=
  if '.' ∈ idea then pyStrip (idea.takeWhile (fun x => x != '.'))
  else pyStrip (idea.take 50)

/-- The source's `_extract_title` agrees with the claimed computation. -/
theorem extract_title_eq (idea : Str) : extract_title idea = titleSpec idea := by
  unfold extract_title titleSpec
  by_cases h : '.' ∈ idea
  · rw [if_pos h, if_pos (List.elem_eq_true_of_mem h)]
    rw [splitOnChar_headD]
  · rw [if_neg h, if_neg (fun hc => h (List.mem_of_elem_eq_true hc))]

/-- C10: in the consolidated Specification, the project title is the part of
the idea description before its first `'.'` when one occurs, otherwise its
first 50 characters, stripped of surrounding whitespace. -/
theorem c10_spec_title (idea : Str) (ctx : Context) (now : Str)
    (hne : idea ≠ [])
    (hctx : dictGet? ctx "idea_description" = some (Value.vs idea)) :
    (generate_specification ctx now).map Spec.title = some (titleSpec idea) := by
  simp [generate_specification, hctx, extract_title_eq]

/-- Witness for `c10_spec_title` on the concrete seeded context. -/
theorem c10_spec_title_witness :
    (generate_specification ctx1T nowT).map Spec.title = some (titleSpec testIdea) :=
  c10_spec_title testIdea ctx1T nowT (by decide) (by decide)

end Ideenfinder
